import Mathlib

/-!
# CG calculator (`src/App.jsx`): embedding and verified properties

The component keeps five pieces of React state (`numCourses`, `courses`, `cg`,
`courseGradePoints`, `bgColor`) and three event handlers
(`handleNumCoursesChange`, `handleCourseChange`, `calculateCG`).  The handlers are
embedded as functions on an explicit `State`.

JavaScript numbers are IEEE-754 binary64 values.  They are embedded exactly:
a finite value is a sign, a significand and a binary exponent in canonical form,
and every arithmetic operation is the exact result rounded to nearest, ties to
even, as ECMAScript prescribes.  All arithmetic is on `Nat` and `Int`, so every
definition evaluates.
-/

set_option maxRecDepth 100000
set_option exponentiation.threshold 4000

namespace CgCalc

/-! ## JavaScript numbers -/

/-- A JavaScript Number.  `fin neg m e` is the finite value `(-1)^neg * m * 2^e` in
canonical binary64 form: `-1074 ≤ e ≤ 971`, `m < 2^53`, and `2^52 ≤ m` unless
`e = -1074` (subnormals and the two zeros `fin _ 0 (-1074)`). -/
inductive JSNum where
  | nan : JSNum
  | inf (neg : Bool) : JSNum
  | fin (neg : Bool) (m : Nat) (e : Int) : JSNum
  deriving DecidableEq, Repr

namespace JSNum

/-- Number of binary digits of `n`, with explicit fuel (`bitLen` supplies enough). -/
def bitLenAux : Nat → Nat → Nat
  | 0, _ => 0
  | fuel + 1, n => if n = 0 then 0 else bitLenAux fuel (n / 2) + 1

/-- Number of binary digits of `n`: `2^(bitLen n - 1) ≤ n < 2^(bitLen n)` for `n > 0`. -/
def bitLen (n : Nat) : Nat := bitLenAux n n

/-- Test `num / den ≥ 2^k` for an integer `k`. -/
def geTwoPow (num den : Nat) (k : Int) : Bool :=
  if 0 ≤ k then decide (den * 2 ^ k.toNat ≤ num) else decide (den ≤ num * 2 ^ (-k).toNat)

/-- Round the positive rational `num / den` (`num > 0`, `den > 0`) to the nearest
binary64 value, ties to even, with sign `neg`; overflow gives an infinity and
underflow a (signed) zero. -/
def roundPos (neg : Bool) (num den : Nat) : JSNum :=
  let e0 : Int := (bitLen num : Int) - (bitLen den : Int)
  let e : Int := if geTwoPow num den e0 then e0 else e0 - 1
  let q : Int := if e - 52 < -1074 then -1074 else e - 52
  let n : Nat := if q < 0 then num * 2 ^ (-q).toNat else num
  let d : Nat := if q < 0 then den else den * 2 ^ q.toNat
  let m0 : Nat := n / d
  let r : Nat := n % d
  let m : Nat := if d < 2 * r ∨ (2 * r = d ∧ m0 % 2 = 1) then m0 + 1 else m0
  let m1 : Nat := if m = 2 ^ 53 then 2 ^ 52 else m
  let q1 : Int := if m = 2 ^ 53 then q + 1 else q
  if 971 < q1 then inf neg else fin neg m1 q1

/-- Positive zero. -/
def zero : JSNum := fin false 0 (-1074)

/-- The Number value of the rational `num / den` with sign `neg` (`den > 0`). -/
def ofRat (neg : Bool) (num den : Nat) : JSNum :=
  if num = 0 then fin neg 0 (-1074) else roundPos neg num den

/-- The Number value of a natural number. -/
def ofNat (n : Nat) : JSNum := ofRat false n 1

/-- The Number value of `m * 2^e` with sign `neg`. -/
def ofDyadic (neg : Bool) (m : Nat) (e : Int) : JSNum :=
  if 0 ≤ e then ofRat neg (m * 2 ^ e.toNat) 1 else ofRat neg m (2 ^ (-e).toNat)

/-- The integer `±m * 2^(e - base)` for a finite value with `base ≤ e`. -/
def scaled (neg : Bool) (m : Nat) (e base : Int) : Int :=
  let v : Int := ((m * 2 ^ (e - base).toNat : Nat) : Int)
  if neg then -v else v

/-- Test `isNaN`. -/
def isNaN : JSNum → Bool
  | nan => true
  | _ => false

/-- The JavaScript `x < y`; `false` when either side is `NaN`. -/
def lt : JSNum → JSNum → Bool
  | nan, _ => false
  | _, nan => false
  | inf true, inf true => false
  | inf true, _ => true
  | _, inf true => false
  | inf false, _ => false
  | _, inf false => true
  | fin n1 m1 e1, fin n2 m2 e2 =>
    let base : Int := if e1 ≤ e2 then e1 else e2
    decide (scaled n1 m1 e1 base < scaled n2 m2 e2 base)

/-- The JavaScript `x > y`. -/
def gt (x y : JSNum) : Bool := lt y x

/-- The JavaScript `x >= y`: `false` when either side is `NaN`, else `!(x < y)`. -/
def ge (x y : JSNum) : Bool := !isNaN x && !isNaN y && !lt x y

/-- The JavaScript `x * y`. -/
def mul : JSNum → JSNum → JSNum
  | nan, _ => nan
  | _, nan => nan
  | inf n1, inf n2 => inf (xor n1 n2)
  | inf n1, fin n2 m _ => if m = 0 then nan else inf (xor n1 n2)
  | fin n1 m _, inf n2 => if m = 0 then nan else inf (xor n1 n2)
  | fin n1 m1 e1, fin n2 m2 e2 => ofDyadic (xor n1 n2) (m1 * m2) (e1 + e2)

/-- The JavaScript `x + y`. -/
def add : JSNum → JSNum → JSNum
  | nan, _ => nan
  | _, nan => nan
  | inf n1, inf n2 => if n1 = n2 then inf n1 else nan
  | inf n1, fin _ _ _ => inf n1
  | fin _ _ _, inf n2 => inf n2
  | fin n1 m1 e1, fin n2 m2 e2 =>
    let base : Int := if e1 ≤ e2 then e1 else e2
    let s : Int := scaled n1 m1 e1 base + scaled n2 m2 e2 base
    if s = 0 then fin (n1 && n2) 0 (-1074)
    else ofDyadic (decide (s < 0)) s.natAbs base

/-- The JavaScript `x / y`. -/
def div : JSNum → JSNum → JSNum
  | nan, _ => nan
  | _, nan => nan
  | inf _, inf _ => nan
  | inf n1, fin n2 _ _ => inf (xor n1 n2)
  | fin n1 _ _, inf n2 => fin (xor n1 n2) 0 (-1074)
  | fin n1 m1 e1, fin n2 m2 e2 =>
    if m2 = 0 then (if m1 = 0 then nan else inf (xor n1 n2))
    else if e2 ≤ e1 then ofRat (xor n1 n2) (m1 * 2 ^ (e1 - e2).toNat) m2
    else ofRat (xor n1 n2) m1 (m2 * 2 ^ (e2 - e1).toNat)

/-- The function `Math.floor`. -/
def floor : JSNum → JSNum
  | nan => nan
  | inf n => inf n
  | fin neg m e =>
    if 0 ≤ e ∨ m = 0 then fin neg m e
    else
      let k : Nat := m / 2 ^ (-e).toNat
      let r : Nat := m % 2 ^ (-e).toNat
      if neg then ofRat true (if r = 0 then k else k + 1) 1 else ofRat false k 1

/-- The integer `n` of `Number.prototype.toFixed(2)` for a finite magnitude
`m * 2^e`: `n / 100` is as close as possible to the value, the larger `n` on a tie. -/
def hundredths (m : Nat) (e : Int) : Nat :=
  if 0 ≤ e then 100 * m * 2 ^ e.toNat
  else
    let d : Nat := 2 ^ (-e).toNat
    let n0 : Nat := 100 * m / d
    if d ≤ 2 * (100 * m % d) then n0 + 1 else n0

/-- The string `x.toFixed(2)`.  A finite value of magnitude `10^21` or more is
printed by `Number::toString`, which is not modelled: the result is `none`. -/
def toFixed2 : JSNum → Option String
  | nan => some "NaN"
  | inf false => some "Infinity"
  | inf true => some "-Infinity"
  | fin neg m e =>
    if lt (fin false m e) (ofNat (10 ^ 21)) = false then none
    else
      let n : Nat := hundredths m e
      let ds : List Char := Nat.toDigits 10 n
      let padded : List Char := List.replicate (3 - ds.length) '0' ++ ds
      let body : List Char :=
        padded.take (padded.length - 2) ++ '.' :: padded.drop (padded.length - 2)
      some (String.mk (if neg ∧ m ≠ 0 then '-' :: body else body))

end JSNum

/-! ## Strings to numbers: `parseFloat` and `parseInt` -/

/-- The characters removed by `TrimString` (ECMAScript `WhiteSpace` and
`LineTerminator`). -/
def isStrWhiteSpaceChar (c : Char) : Bool :=
  decide (c.toNat ∈ [9, 10, 11, 12, 13, 32, 160, 5760, 8232, 8233, 8239, 8287, 12288, 65279])
    || (decide (8192 ≤ c.toNat) && decide (c.toNat ≤ 8202))

/-- The value of a sequence of decimal digits. -/
def digitsValue (ds : List Char) : Nat :=
  ds.foldl (fun acc c => 10 * acc + (c.toNat - 48)) 0

/-- The `ExponentPart` at the head of the input, if there is a complete one:
`e` or `E`, an optional sign, and at least one digit.  Absent, the exponent is `0`. -/
def exponentPart : List Char → Int
  | [] => 0
  | c :: rest =>
    if c = 'e' ∨ c = 'E' then
      match rest with
      | '-' :: ds => -((digitsValue (ds.takeWhile Char.isDigit) : Nat) : Int)
      | '+' :: ds => ((digitsValue (ds.takeWhile Char.isDigit) : Nat) : Int)
      | ds => ((digitsValue (ds.takeWhile Char.isDigit) : Nat) : Int)
    else 0

/-- The unsigned part of `parseFloat`: the longest prefix that is a
`StrUnsignedDecimalLiteral`, converted to a Number with sign `neg`; `NaN` when no
prefix is one. -/
def parseUnsignedDecimal (neg : Bool) (s : List Char) : JSNum :=
  if "Infinity".toList.isPrefixOf s then JSNum.inf neg
  else
    let ip : List Char := s.takeWhile Char.isDigit
    let r1 : List Char := s.dropWhile Char.isDigit
    let fp : List Char :=
      match r1 with
      | '.' :: t => t.takeWhile Char.isDigit
      | _ => []
    let r2 : List Char :=
      match r1 with
      | '.' :: t => t.dropWhile Char.isDigit
      | _ => r1
    if ip.isEmpty ∧ fp.isEmpty then JSNum.nan
    else
      let scale : Int := exponentPart r2 - (fp.length : Int)
      let mant : Nat := digitsValue (ip ++ fp)
      if 0 ≤ scale then JSNum.ofRat neg (mant * 10 ^ scale.toNat) 1
      else JSNum.ofRat neg mant (10 ^ (-scale).toNat)

/-- The global function `parseFloat` on a string. -/
def parseFloat (string : String) : JSNum :=
  match string.toList.dropWhile isStrWhiteSpaceChar with
  | '-' :: t => parseUnsignedDecimal true t
  | '+' :: t => parseUnsignedDecimal false t
  | t => parseUnsignedDecimal false t

/-- The global function `parseInt(string, 10)`. -/
def parseInt10 (string : String) : JSNum :=
  let s : List Char := string.toList.dropWhile isStrWhiteSpaceChar
  let neg : Bool := s.head? = some '-'
  let body : List Char :=
    match s with
    | '-' :: t => t
    | '+' :: t => t
    | t => t
  let z : List Char := body.takeWhile Char.isDigit
  if z.isEmpty then JSNum.nan else JSNum.ofRat neg (digitsValue z) 1

/-! ## The grade table -/

/-- The own properties of the object literal `gradeMap` (lines 4-13). -/
def gradeMap : List (String × Nat) :=
  [("AA", 10), ("AB", 9), ("BB", 8), ("BC", 7), ("CC", 6), ("CD", 5), ("DD", 4), ("FF", 0)]

/-- The property names of `Object.prototype`, which every object literal inherits. -/
def objectPrototypeKeys : List String :=
  ["constructor", "hasOwnProperty", "isPrototypeOf", "propertyIsEnumerable",
   "toLocaleString", "toString", "valueOf", "__proto__", "__defineGetter__",
   "__defineSetter__", "__lookupGetter__", "__lookupSetter__"]

/-- The values a property read `gradeMap[grade]` can produce. -/
inductive JSValue where
  | undefined : JSValue
  | number (x : JSNum) : JSValue
  | inherited (key : String) : JSValue
  deriving DecidableEq, Repr

/-- The property read `gradeMap[grade]`: an own property, else a member inherited
from `Object.prototype`, else `undefined`. -/
def gradeMapGet (grade : String) : JSValue :=
  match gradeMap.lookup grade with
  | some n => JSValue.number (JSNum.ofNat n)
  | none =>
    if grade ∈ objectPrototypeKeys then JSValue.inherited grade else JSValue.undefined

/-- The conversion `ToNumber` applied by `*`: `undefined` and the members of
`Object.prototype` (functions, and the prototype object) all convert to `NaN`. -/
def JSValue.toNumber : JSValue → JSNum
  | JSValue.undefined => JSNum.nan
  | JSValue.number x => x
  | JSValue.inherited _ => JSNum.nan

/-! ## Component state (lines 17-21) -/

/-- One element of `courses`: the two text fields of a course row. -/
structure CourseEntry where
  credits : String
  grade : String
  deriving DecidableEq, Repr

/-- The field names passed to `handleCourseChange` (lines 120 and 125). -/
inductive Field where
  | credits : Field
  | grade : Field
  deriving DecidableEq, Repr

/-- The values of the state variable `cg`: the initial `null`, the string
`'Invalid Input'`, or the string `calculatedCG.toFixed(2)`, kept as the number it
formats (`JSNum.toFixed2` gives its text). -/
inductive Cg where
  | null : Cg
  | invalidInput : Cg
  | toFixed (calculatedCG : JSNum) : Cg
  deriving DecidableEq, Repr

/-- The class names stored in `bgColor`: `bg-gray-100`, `bg-green-500`,
`bg-yellow-500`, `bg-orange-500`, `bg-red-500`. -/
inductive BgColor where
  | gray100 : BgColor
  | green500 : BgColor
  | yellow500 : BgColor
  | orange500 : BgColor
  | red500 : BgColor
  deriving DecidableEq, Repr

/-- The result band a background colour stands for, as the comments of lines 68-79
name them. -/
inductive Band where
  | excellent : Band
  | good : Band
  | average : Band
  | belowAverage : Band
  | undetermined : Band
  deriving DecidableEq, Repr

/-- The band shown by a background colour. -/
def BgColor.band : BgColor → Band
  | BgColor.green500 => Band.excellent
  | BgColor.yellow500 => Band.good
  | BgColor.orange500 => Band.average
  | BgColor.red500 => Band.belowAverage
  | BgColor.gray100 => Band.undetermined

/-- The five state variables of `App`.  `numCourses` holds the Number `count`; on every
run of `handleNumCoursesChange` that does not throw it is an array length, so it is
kept as a natural number. -/
structure State where
  numCourses : Nat
  courses : List CourseEntry
  cg : Cg
  courseGradePoints : List JSNum
  bgColor : BgColor
  deriving DecidableEq, Repr

/-- The initial values given to `useState`. -/
def initialState : State :=
  { numCourses := 0, courses := [], cg := Cg.null, courseGradePoints := [],
    bgColor := BgColor.gray100 }

/-- The result band of a state. -/
def State.resultBand (s : State) : Band := s.bgColor.band

/-! ## `handleNumCoursesChange` (lines 24-29) -/

/-- The non-negative integer a Number denotes, if it denotes one (`-0` denotes 0). -/
def JSNum.toNat? : JSNum → Option Nat
  | JSNum.fin neg m e =>
    if 0 ≤ e then (if neg ∧ m ≠ 0 then none else some (m * 2 ^ e.toNat))
    else if m % 2 ^ (-e).toNat = 0 then
      (if neg ∧ m ≠ 0 then none else some (m / 2 ^ (-e).toNat))
    else none
  | _ => none

/-- The abstract operation `ToLength`: truncate, clamp to `[0, 2^53 - 1]`. -/
def JSNum.toLength : JSNum → Nat
  | JSNum.nan => 0
  | JSNum.inf neg => if neg then 0 else 2 ^ 53 - 1
  | JSNum.fin neg m e =>
    if neg then 0
    else min (if 0 ≤ e then m * 2 ^ e.toNat else m / 2 ^ (-e).toNat) (2 ^ 53 - 1)

deriving instance DecidableEq for Except

/-- The message of the exception thrown for an invalid array length. -/
def rangeError : String := "RangeError: Invalid array length"

/-- The length of `Array(len)` for a Number `len`: `len` must be an integer in
`[0, 2^32 - 1]`, otherwise a `RangeError` is thrown. -/
def arrayCreate (len : JSNum) : Except String Nat :=
  match len.toNat? with
  | some n => if n < 2 ^ 32 then Except.ok n else Except.error rangeError
  | none => Except.error rangeError

/-- The length of the array `Array.from` builds from an array-like object whose
`length` is `count`: `ToLength(count)`, which must be a valid array length. -/
def arrayFrom (count : JSNum) : Except String Nat :=
  if count.toLength < 2 ^ 32 then Except.ok count.toLength else Except.error rangeError

/-- The expression `parseInt(value, 10) || 0`: `NaN` and the zeros are falsy. -/
def parseCount (value : String) : JSNum :=
  match parseInt10 value with
  | JSNum.nan => JSNum.zero
  | JSNum.inf neg => JSNum.inf neg
  | JSNum.fin neg m e => if m = 0 then JSNum.zero else JSNum.fin neg m e

/-- The handler `handleNumCoursesChange`, on the text `e.target.value`.  An exception
ends the handler; the state it leaves behind is not modelled. -/
def handleNumCoursesChange (s : State) (value : String) : Except String State :=
  let count : JSNum := parseCount value
  match arrayFrom count, arrayCreate count with
  | Except.ok n, Except.ok k =>
    Except.ok
      { s with
        numCourses := k
        courses := List.replicate n { credits := "", grade := "" }
        courseGradePoints := List.replicate k JSNum.zero }
  | Except.error err, _ => Except.error err
  | _, Except.error err => Except.error err

/-! ## `handleCourseChange` (lines 32-38) -/

/-- The object spread with one field replaced. -/
def CourseEntry.setField (c : CourseEntry) (field : Field) (value : String) : CourseEntry :=
  match field with
  | Field.credits => { c with credits := value }
  | Field.grade => { c with grade := value }

/-- The updater given to `setCourses`: a copy of `prevCourses` with the element at
`index` replaced.  The index is one of the rendered rows (lines 112-125), so it is
in range; an index past the end, which would lengthen the JavaScript array, has no
counterpart here. -/
def updatedCourses (prevCourses : List CourseEntry) (index : Fin prevCourses.length)
    (field : Field) (value : String) : List CourseEntry :=
  prevCourses.set index.val ((prevCourses.get index).setField field value)

/-- The handler `handleCourseChange`. -/
def handleCourseChange (s : State) (index : Fin s.courses.length) (field : Field)
    (value : String) : State :=
  { s with courses := updatedCourses s.courses index field value }

/-! ## `calculateCG` (lines 41-81) -/

/-- The three local variables of `calculateCG`. -/
structure Totals where
  totalCredits : JSNum
  totalPoints : JSNum
  updatedGradePoints : List JSNum
  deriving DecidableEq, Repr

/-- The condition of line 50. -/
def acceptsEntry (c : CourseEntry) : Bool :=
  decide (gradeMapGet c.grade ≠ JSValue.undefined)
    && !(parseFloat c.credits).isNaN
    && (parseFloat c.credits).gt JSNum.zero

/-- The product `numericGrade * parsedCredits` of line 51. -/
def gradePoints (c : CourseEntry) : JSNum :=
  (gradeMapGet c.grade).toNumber.mul (parseFloat c.credits)

/-- The body of the `forEach` callback (lines 46-58). -/
def forEachBody (t : Totals) (c : CourseEntry) : Totals :=
  if acceptsEntry c then
    { totalCredits := t.totalCredits.add (parseFloat c.credits)
      totalPoints := t.totalPoints.add (gradePoints c)
      updatedGradePoints := t.updatedGradePoints ++ [gradePoints c] }
  else
    { t with updatedGradePoints := t.updatedGradePoints ++ [JSNum.zero] }

/-- The locals after the `forEach` loop over `courses`. -/
def totals (courses : List CourseEntry) : Totals :=
  courses.foldl forEachBody
    { totalCredits := JSNum.zero, totalPoints := JSNum.zero, updatedGradePoints := [] }

/-- The value `calculatedCG` of line 62. -/
def calculatedCG (t : Totals) : JSNum :=
  (((t.totalPoints.div t.totalCredits).mul (JSNum.ofNat 100)).floor).div (JSNum.ofNat 100)

/-- The colour chosen by lines 67-75. -/
def colorOf (calculatedCG : JSNum) : BgColor :=
  if calculatedCG.ge (JSNum.ofNat 9) then BgColor.green500
  else if calculatedCG.ge (JSNum.ofNat 7) then BgColor.yellow500
  else if calculatedCG.ge (JSNum.ofNat 5) then BgColor.orange500
  else BgColor.red500

/-- The handler `calculateCG`. -/
def calculateCG (s : State) : State :=
  let t : Totals := totals s.courses
  if t.totalCredits.gt JSNum.zero then
    { s with
      cg := Cg.toFixed (calculatedCG t)
      courseGradePoints := t.updatedGradePoints
      bgColor := colorOf (calculatedCG t) }
  else
    { s with cg := Cg.invalidInput, courseGradePoints := [], bgColor := BgColor.gray100 }

/-- The text of `cg` shown on the page (`none`: nothing is shown, or the text is
outside the range `JSNum.toFixed2` covers). -/
def Cg.text : Cg → Option String
  | Cg.null => none
  | Cg.invalidInput => some "Invalid Input"
  | Cg.toFixed x => x.toFixed2

/-- The states reachable from the initial state by runs of the three handlers that
do not throw. -/
inductive Reachable : State → Prop where
  | init : Reachable initialState
  | numCoursesChange (s s1 : State) (value : String) :
      Reachable s → handleNumCoursesChange s value = Except.ok s1 → Reachable s1
  | courseChange (s : State) (index : Fin s.courses.length) (field : Field)
      (value : String) : Reachable s → Reachable (handleCourseChange s index field value)
  | calculate (s : State) : Reachable s → Reachable (calculateCG s)

/-- A state whose `courses` are the given rows, everything else as initially. -/
def withCourses (rows : List (String × String)) : State :=
  { initialState with
    numCourses := rows.length
    courses := rows.map fun r => { credits := r.1, grade := r.2 }
    courseGradePoints := List.replicate rows.length JSNum.zero }

/-! ## Derived notions used in the statements -/

/-- The grade points the loop records for one entry (lines 54 and 56). -/
def recordedPoints (c : CourseEntry) : JSNum :=
  if acceptsEntry c then gradePoints c else JSNum.zero

/-- The exact value of a finite Number (`0` for `NaN` and the infinities). -/
def JSNum.toRat : JSNum → ℚ
  | JSNum.fin neg m e => (if neg then -1 else 1) * (m : ℚ) * (2 : ℚ) ^ e
  | _ => 0

/-- The shape every reachable state has: as many entries as the course count, and
grade points that are either one per course or cleared by a failed compute. -/
def WellShaped (s : State) : Prop :=
  s.courses.length = s.numCourses
    ∧ (s.courseGradePoints.length = s.numCourses
        ∨ (s.courseGradePoints = [] ∧ s.cg = Cg.invalidInput))

/-! ### The spec's exact reading of the computed value

These four definitions follow the words of the spec, in exact rational arithmetic,
to be compared with `calculateCG`. -/

/-- An entry the spec calls valid: a GradeScale label and parsed credits `> 0`. -/
def specValid (c : CourseEntry) : Bool :=
  (gradeMap.lookup c.grade).isSome && (parseFloat c.credits).gt JSNum.zero

/-- The grade value of an entry's label (0 without a label). -/
def specGradeValue (c : CourseEntry) : Nat := (gradeMap.lookup c.grade).getD 0

/-- The spec's `totalCredits`: the exact sum of the credits of the valid entries. -/
def specTotalCredits (courses : List CourseEntry) : ℚ :=
  ((courses.filter specValid).map fun c => (parseFloat c.credits).toRat).sum

/-- The spec's `totalPoints`: the exact sum of grade value times credits over the
valid entries. -/
def specTotalPoints (courses : List CourseEntry) : ℚ :=
  ((courses.filter specValid).map fun c =>
    (specGradeValue c : ℚ) * (parseFloat c.credits).toRat).sum

/-- The spec's `cg`: the exact quotient truncated to two decimals,
`floor(totalPoints / totalCredits * 100) / 100`. -/
def specCg (courses : List CourseEntry) : ℚ :=
  (⌊specTotalPoints courses / specTotalCredits courses * 100⌋ : ℚ) / 100

/-! ## The loop of `calculateCG` -/

theorem forEachBody_updatedGradePoints (t : Totals) (c : CourseEntry) :
    (forEachBody t c).updatedGradePoints = t.updatedGradePoints ++ [recordedPoints c] := by
  unfold forEachBody recordedPoints
  split <;> rfl

theorem foldl_updatedGradePoints (cs : List CourseEntry) (t : Totals) :
    (cs.foldl forEachBody t).updatedGradePoints
      = t.updatedGradePoints ++ cs.map recordedPoints := by
  induction cs generalizing t with
  | nil => simp
  | cons c cs ih =>
    rw [List.foldl_cons, ih, forEachBody_updatedGradePoints]
    simp

theorem totals_updatedGradePoints (cs : List CourseEntry) :
    (totals cs).updatedGradePoints = cs.map recordedPoints := by
  unfold totals
  rw [foldl_updatedGradePoints]
  rfl

theorem JSNum.scaled_cast (neg : Bool) (m : Nat) (e base : Int) (h : base ≤ e) :
    ((JSNum.scaled neg m e base : Int) : ℚ)
      = (JSNum.fin neg m e).toRat * (2 : ℚ) ^ (-base) := by
  have h2 : ((2 : ℚ) ^ (e - base).toNat) = (2 : ℚ) ^ e * (2 : ℚ) ^ (-base) := by
    rw [← zpow_natCast, Int.toNat_of_nonneg (by omega), ← zpow_add₀ (by norm_num)]
    congr 1
  cases neg <;> simp [JSNum.scaled, JSNum.toRat, h2] <;> ring

theorem JSNum.lt_fin_iff (n1 : Bool) (m1 : Nat) (e1 : Int) (n2 : Bool) (m2 : Nat) (e2 : Int) :
    (JSNum.fin n1 m1 e1).lt (JSNum.fin n2 m2 e2) = true
      ↔ (JSNum.fin n1 m1 e1).toRat < (JSNum.fin n2 m2 e2).toRat := by
  have hpos : ∀ b : Int, (0 : ℚ) < (2 : ℚ) ^ (-b) := fun b => zpow_pos (by norm_num) _
  simp only [JSNum.lt, decide_eq_true_eq]
  by_cases hle : e1 ≤ e2
  · simp only [hle, if_true]
    rw [← Int.cast_lt (R := ℚ), JSNum.scaled_cast n1 m1 e1 e1 le_rfl,
      JSNum.scaled_cast n2 m2 e2 e1 hle]
    exact mul_lt_mul_right (hpos e1)
  · simp only [hle, if_false]
    rw [← Int.cast_lt (R := ℚ), JSNum.scaled_cast n1 m1 e1 e2 (by omega),
      JSNum.scaled_cast n2 m2 e2 e2 le_rfl]
    exact mul_lt_mul_right (hpos e2)

theorem JSNum.lt_of_lt_of_le (x : JSNum) (n1 : Bool) (m1 : Nat) (e1 : Int) (n2 : Bool)
    (m2 : Nat) (e2 : Int) (h : x.lt (JSNum.fin n1 m1 e1) = true)
    (hle : (JSNum.fin n1 m1 e1).toRat ≤ (JSNum.fin n2 m2 e2).toRat) :
    x.lt (JSNum.fin n2 m2 e2) = true := by
  cases x with
  | nan => simp [JSNum.lt] at h
  | inf neg =>
    cases neg with
    | false => simp [JSNum.lt] at h
    | true => simp [JSNum.lt]
  | fin n m e =>
    rw [JSNum.lt_fin_iff] at h ⊢
    exact h.trans_le hle

theorem JSNum.ge_eq_false_of_lt (x y : JSNum) (h : x.lt y = true) : x.ge y = false := by
  simp [JSNum.ge, h]

theorem JSNum.ofNat_five : JSNum.ofNat 5 = JSNum.fin false 5629499534213120 (-50) := by
  decide

theorem JSNum.ofNat_seven : JSNum.ofNat 7 = JSNum.fin false 7881299347898368 (-50) := by
  decide

theorem JSNum.ofNat_nine : JSNum.ofNat 9 = JSNum.fin false 5066549580791808 (-49) := by
  decide

theorem JSNum.lt_seven_of_lt_five (x : JSNum) (h : x.lt (JSNum.ofNat 5) = true) :
    x.lt (JSNum.ofNat 7) = true := by
  rw [JSNum.ofNat_five] at h
  rw [JSNum.ofNat_seven]
  refine JSNum.lt_of_lt_of_le x _ _ _ _ _ _ h ?_
  norm_num [JSNum.toRat]

theorem JSNum.lt_nine_of_lt_seven (x : JSNum) (h : x.lt (JSNum.ofNat 7) = true) :
    x.lt (JSNum.ofNat 9) = true := by
  rw [JSNum.ofNat_seven] at h
  rw [JSNum.ofNat_nine]
  refine JSNum.lt_of_lt_of_le x _ _ _ _ _ _ h ?_
  norm_num [JSNum.toRat]

theorem colorOf_of_ge_nine (x : JSNum) (h : x.ge (JSNum.ofNat 9) = true) :
    colorOf x = BgColor.green500 := by
  simp [colorOf, h]

theorem colorOf_of_lt_nine (x : JSNum) (h7 : x.ge (JSNum.ofNat 7) = true)
    (h9 : x.lt (JSNum.ofNat 9) = true) : colorOf x = BgColor.yellow500 := by
  simp [colorOf, h7, JSNum.ge_eq_false_of_lt x _ h9]

theorem colorOf_of_lt_seven (x : JSNum) (h5 : x.ge (JSNum.ofNat 5) = true)
    (h7 : x.lt (JSNum.ofNat 7) = true) : colorOf x = BgColor.orange500 := by
  simp [colorOf, h5, JSNum.ge_eq_false_of_lt x _ h7,
    JSNum.ge_eq_false_of_lt x _ (JSNum.lt_nine_of_lt_seven x h7)]

theorem colorOf_of_lt_five (x : JSNum) (h5 : x.lt (JSNum.ofNat 5) = true) :
    colorOf x = BgColor.red500 := by
  have h7 := JSNum.lt_seven_of_lt_five x h5
  simp [colorOf, JSNum.ge_eq_false_of_lt x _ h5, JSNum.ge_eq_false_of_lt x _ h7,
    JSNum.ge_eq_false_of_lt x _ (JSNum.lt_nine_of_lt_seven x h7)]

theorem calculateCG_of_gt (s : State)
    (h : (totals s.courses).totalCredits.gt JSNum.zero = true) :
    calculateCG s =
      { s with
        cg := Cg.toFixed (calculatedCG (totals s.courses))
        courseGradePoints := (totals s.courses).updatedGradePoints
        bgColor := colorOf (calculatedCG (totals s.courses)) } := by
  simp [calculateCG, h]

theorem calculateCG_of_not_gt (s : State)
    (h : (totals s.courses).totalCredits.gt JSNum.zero = false) :
    calculateCG s =
      { s with cg := Cg.invalidInput, courseGradePoints := [], bgColor := BgColor.gray100 } := by
  simp [calculateCG, h]

/-! ## Accepted entries (claim C2) -/

/-- C5: after a compute with `totalCredits > 0`, `cg` is the text of the truncated
value `calculatedCG` and the band follows that value with lower-inclusive
thresholds: `>= 9` Excellent, `>= 7` and `< 9` Good, `>= 5` and `< 7` Average,
`< 5` BelowAverage. -/
theorem calculateCG_resultBand (s : State)
    (h : (totals s.courses).totalCredits.gt JSNum.zero = true) :
    (calculateCG s).cg = Cg.toFixed (calculatedCG (totals s.courses))
      ∧ ((calculatedCG (totals s.courses)).ge (JSNum.ofNat 9) = true →
          (calculateCG s).resultBand = Band.excellent)
      ∧ ((calculatedCG (totals s.courses)).ge (JSNum.ofNat 7) = true →
          (calculatedCG (totals s.courses)).lt (JSNum.ofNat 9) = true →
          (calculateCG s).resultBand = Band.good)
      ∧ ((calculatedCG (totals s.courses)).ge (JSNum.ofNat 5) = true →
          (calculatedCG (totals s.courses)).lt (JSNum.ofNat 7) = true →
          (calculateCG s).resultBand = Band.average)
      ∧ ((calculatedCG (totals s.courses)).lt (JSNum.ofNat 5) = true →
          (calculateCG s).resultBand = Band.belowAverage) := by
  rw [calculateCG_of_gt s h]
  refine ⟨rfl, ?_, ?_, ?_, ?_⟩
  · intro h9
    simp [State.resultBand, colorOf_of_ge_nine _ h9, BgColor.band]
  · intro h7 h9
    simp [State.resultBand, colorOf_of_lt_nine _ h7 h9, BgColor.band]
  · intro h5 h7
    simp [State.resultBand, colorOf_of_lt_seven _ h5 h7, BgColor.band]
  · intro h5
    simp [State.resultBand, colorOf_of_lt_five _ h5, BgColor.band]

/-- C5, witness: the six values named in the claim.  Rows giving 9.00, 8.99, 7.00,
6.99, 5.00 and 4.99 land in Excellent, Good, Good, Average, Average, BelowAverage. -/
theorem calculateCG_resultBand_witness :
    ((calculateCG (withCourses [("5", "AA"), ("5", "BB")])).cg.text = some "9.00"
        ∧ (calculateCG (withCourses [("5", "AA"), ("5", "BB")])).resultBand = Band.excellent)
      ∧ ((calculateCG (withCourses [("199", "AB"), ("1", "BB")])).cg.text = some "8.99"
        ∧ (calculateCG (withCourses [("199", "AB"), ("1", "BB")])).resultBand = Band.good)
      ∧ ((calculateCG (withCourses [("2", "BC")])).cg.text = some "7.00"
        ∧ (calculateCG (withCourses [("2", "BC")])).resultBand = Band.good)
      ∧ ((calculateCG (withCourses [("199", "BC"), ("1", "CC")])).cg.text = some "6.99"
        ∧ (calculateCG (withCourses [("199", "BC"), ("1", "CC")])).resultBand = Band.average)
      ∧ ((calculateCG (withCourses [("2", "CD")])).cg.text = some "5.00"
        ∧ (calculateCG (withCourses [("2", "CD")])).resultBand = Band.average)
      ∧ ((calculateCG (withCourses [("199", "CD"), ("1", "DD")])).cg.text = some "4.99"
        ∧ (calculateCG (withCourses [("199", "CD"), ("1", "DD")])).resultBand
            = Band.belowAverage) :=
  ⟨⟨by decide,
      (calculateCG_resultBand (withCourses [("5", "AA"), ("5", "BB")]) (by decide)).2.1
        (by decide)⟩,
    ⟨by decide,
      (calculateCG_resultBand (withCourses [("199", "AB"), ("1", "BB")]) (by decide)).2.2.1
        (by decide) (by decide)⟩,
    ⟨by decide,
      (calculateCG_resultBand (withCourses [("2", "BC")]) (by decide)).2.2.1
        (by decide) (by decide)⟩,
    ⟨by decide,
      (calculateCG_resultBand (withCourses [("199", "BC"), ("1", "CC")]) (by decide)).2.2.2.1
        (by decide) (by decide)⟩,
    ⟨by decide,
      (calculateCG_resultBand (withCourses [("2", "CD")]) (by decide)).2.2.2.1
        (by decide) (by decide)⟩,
    ⟨by decide,
      (calculateCG_resultBand (withCourses [("199", "CD"), ("1", "DD")]) (by decide)).2.2.2.2
        (by decide)⟩⟩

/-! ## Changing the number of courses (claim C8) -/

theorem JSNum.toLength_of_toNat? (x : JSNum) (n : Nat) (h : x.toNat? = some n)
    (hlt : n < 2 ^ 32) : x.toLength = n := by
  cases x with
  | nan => simp [JSNum.toNat?] at h
  | inf neg => simp [JSNum.toNat?] at h
  | fin neg m e =>
    simp only [JSNum.toNat?] at h
    simp only [JSNum.toLength]
    cases neg with
    | true =>
      by_cases hm : m = 0
      · subst hm
        split at h
        · simp at h
          simp [← h]
        · simp at h
          simp [← h]
      · split at h
        · simp [hm] at h
        · split at h
          · simp [hm] at h
          · simp at h
    | false =>
      have h53 : n ≤ 2 ^ 53 - 1 := by omega
      by_cases he : 0 ≤ e
      · simp only [he, if_true, Bool.false_eq_true, false_and, if_false,
          Option.some.injEq] at h
        simp only [Bool.false_eq_true, if_false, he, if_true, h]
        exact Nat.min_eq_left h53
      · simp only [he, if_false, Bool.false_eq_true, false_and] at h
        split at h
        · simp only [Option.some.injEq] at h
          simp only [Bool.false_eq_true, if_false, he, h]
          exact Nat.min_eq_left h53
        · simp at h

/-- C9: for every state, every index of an entry, every field and every value,
`handleCourseChange` keeps the number of entries, puts `value` unchecked in the named
field of the entry at `index`, keeps that entry's other field, keeps every other
entry, and touches no other state variable. -/
theorem handleCourseChange_frame (s : State) (index : Fin s.courses.length)
    (field : Field) (value : String) :
    (handleCourseChange s index field value).courses.length = s.courses.length
      ∧ (handleCourseChange s index field value).courses[index.val]?
          = some ((s.courses.get index).setField field value)
      ∧ ((s.courses.get index).setField Field.credits value
          = { credits := value, grade := (s.courses.get index).grade })
      ∧ ((s.courses.get index).setField Field.grade value
          = { credits := (s.courses.get index).credits, grade := value })
      ∧ (∀ j : Nat, j ≠ index.val →
          (handleCourseChange s index field value).courses[j]? = s.courses[j]?)
      ∧ (handleCourseChange s index field value).numCourses = s.numCourses
      ∧ (handleCourseChange s index field value).cg = s.cg
      ∧ (handleCourseChange s index field value).courseGradePoints = s.courseGradePoints
      ∧ (handleCourseChange s index field value).bgColor = s.bgColor := by
  refine ⟨?_, ?_, rfl, rfl, ?_, rfl, rfl, rfl, rfl⟩
  · simp [handleCourseChange, updatedCourses]
  · simp [handleCourseChange, updatedCourses, List.getElem?_set]
  · intro j hj
    simp only [handleCourseChange, updatedCourses]
    rw [List.getElem?_set_ne (Ne.symm hj)]

/-- C9, witness: the grade of the second of two rows is set to an unrecognised text. -/
theorem handleCourseChange_frame_witness :
    (handleCourseChange (withCourses [("3", "BC"), ("4", "CD")]) ⟨1, by decide⟩
        Field.grade "not a grade").courses
      = [{ credits := "3", grade := "BC" }, { credits := "4", grade := "not a grade" }] := by
  have h := handleCourseChange_frame (withCourses [("3", "BC"), ("4", "CD")])
    ⟨1, by decide⟩ Field.grade "not a grade"
  apply List.ext_getElem?
  intro j
  by_cases hj : j = 1
  · subst hj
    rw [h.2.1]
    rfl
  · rw [h.2.2.2.2.1 j hj]
    match j with
    | 0 => rfl
    | 1 => exact absurd rfl hj
    | k + 2 => rfl

/-! ## Reachable states (claims C6 and C7) -/

theorem handleNumCoursesChange_ok (s s1 : State) (value : String)
    (h : handleNumCoursesChange s value = Except.ok s1) :
    ∃ k : Nat, s1 =
      { numCourses := k
        courses := List.replicate k { credits := "", grade := "" }
        cg := s.cg
        courseGradePoints := List.replicate k JSNum.zero
        bgColor := s.bgColor } := by
  unfold handleNumCoursesChange arrayCreate at h
  cases hc : (parseCount value).toNat? with
  | none =>
    simp only [hc] at h
    split at h <;> simp_all
  | some k =>
    simp only [hc] at h
    by_cases hk : k < 2 ^ 32
    · have hl := JSNum.toLength_of_toNat? _ k hc hk
      simp only [arrayFrom, hl, hk, if_true] at h
      exact ⟨k, (Except.ok.inj h).symm⟩
    · simp only [hk, if_false] at h
      split at h <;> simp_all

theorem wellShaped_of_reachable (s : State) (h : Reachable s) : WellShaped s := by
  induction h with
  | init => exact ⟨rfl, Or.inl rfl⟩
  | numCoursesChange s s1 value _ hs1 _ =>
    obtain ⟨k, hk⟩ := handleNumCoursesChange_ok s s1 value hs1
    subst hk
    exact ⟨by simp, Or.inl (by simp)⟩
  | courseChange s index field value _ ih =>
    refine ⟨?_, ?_⟩
    · simpa [handleCourseChange, updatedCourses] using ih.1
    · simpa [handleCourseChange] using ih.2
  | calculate s _ ih =>
    cases hgt : (totals s.courses).totalCredits.gt JSNum.zero with
    | true =>
      rw [calculateCG_of_gt s hgt]
      refine ⟨ih.1, Or.inl ?_⟩
      simp [totals_updatedGradePoints, ih.1]
    | false =>
      rw [calculateCG_of_not_gt s hgt]
      exact ⟨ih.1, Or.inr ⟨rfl, rfl⟩⟩

theorem reachable_threeEmpty_computed :
    Reachable (calculateCG (withCourses [("", ""), ("", ""), ("", "")])) :=
  Reachable.calculate _
    (Reachable.numCoursesChange initialState _ "3" Reachable.init (by decide))

/-- C6, counterexample: choosing three courses and computing at once reaches a state
with course count 3 and no grade points at all. -/
theorem reachable_gradePoints_length_ne_count :
    Reachable (calculateCG (withCourses [("", ""), ("", ""), ("", "")]))
      ∧ (calculateCG (withCourses [("", ""), ("", ""), ("", "")])).numCourses = 3
      ∧ (calculateCG (withCourses [("", ""), ("", ""), ("", "")])).courseGradePoints.length
          = 0 :=
  ⟨reachable_threeEmpty_computed, by decide, by decide⟩

/-- C6, amended: in every reachable state the number of entries equals the course
count, and the grade points either number the course count or are empty with `cg`
at the invalid sentinel (the state a compute with `totalCredits = 0` leaves). -/
theorem reachable_gradePoints_length (s : State) (h : Reachable s) :
    s.courses.length = s.numCourses
      ∧ (s.courseGradePoints.length = s.numCourses
          ∨ (s.courseGradePoints = [] ∧ s.cg = Cg.invalidInput)) :=
  wellShaped_of_reachable s h

/-- C6, witness: the amended invariant at the state reached by choosing two courses,
filling the first row and computing. -/
theorem reachable_gradePoints_length_witness :
    (calculateCG (withCourses [("3", "BC"), ("", "")])).courses.length = 2
      ∧ (calculateCG (withCourses [("3", "BC"), ("", "")])).numCourses = 2
      ∧ (calculateCG (withCourses [("3", "BC"), ("", "")])).courseGradePoints.length = 2 := by
  have hr : Reachable (calculateCG (withCourses [("3", "BC"), ("", "")])) :=
    Reachable.calculate _
      (Reachable.courseChange (withCourses [("3", ""), ("", "")]) ⟨0, by decide⟩
        Field.grade "BC"
        (Reachable.courseChange (withCourses [("", ""), ("", "")]) ⟨0, by decide⟩
          Field.credits "3"
          (Reachable.numCoursesChange initialState _ "2" Reachable.init (by decide))))
  have h := reachable_gradePoints_length _ hr
  have hn : (calculateCG (withCourses [("3", "BC"), ("", "")])).numCourses = 2 := by decide
  have hcg : (calculateCG (withCourses [("3", "BC"), ("", "")])).cg ≠ Cg.invalidInput := by
    decide
  refine ⟨h.1.trans hn, hn, ?_⟩
  rcases h.2 with h2 | h2
  · exact h2.trans hn
  · exact absurd h2.2 hcg

/-- C7, counterexample: from a state whose band is Excellent, changing the course
count leaves the band Excellent, not Undetermined. -/
theorem handleNumCoursesChange_keeps_excellent :
    (calculateCG (withCourses [("5", "AA"), ("5", "BB")])).resultBand = Band.excellent
      ∧ (handleNumCoursesChange (calculateCG (withCourses [("5", "AA"), ("5", "BB")])) "3").map
          State.resultBand = Except.ok Band.excellent := by
  decide

/-- C7, amended: changing the course count and editing an entry leave the result
band as it was; the band changes only on compute, to a determined band (the one of
`colorOf calculatedCG`) when `totalCredits > 0` and to Undetermined otherwise. -/
theorem resultBand_transitions (s : State) :
    (∀ (value : String) (s1 : State), handleNumCoursesChange s value = Except.ok s1 →
        s1.resultBand = s.resultBand)
      ∧ (∀ (index : Fin s.courses.length) (field : Field) (value : String),
          (handleCourseChange s index field value).resultBand = s.resultBand)
      ∧ ((totals s.courses).totalCredits.gt JSNum.zero = true →
          (calculateCG s).resultBand = (colorOf (calculatedCG (totals s.courses))).band
            ∧ (calculateCG s).resultBand ≠ Band.undetermined)
      ∧ ((totals s.courses).totalCredits.gt JSNum.zero = false →
          (calculateCG s).resultBand = Band.undetermined) := by
  refine ⟨?_, ?_, ?_, ?_⟩
  · intro value s1 h
    obtain ⟨k, hk⟩ := handleNumCoursesChange_ok s s1 value h
    subst hk
    rfl
  · intro index field value
    rfl
  · intro hgt
    rw [calculateCG_of_gt s hgt]
    refine ⟨rfl, ?_⟩
    simp only [State.resultBand, colorOf]
    split
    · simp [BgColor.band]
    · split
      · simp [BgColor.band]
      · split <;> simp [BgColor.band]
  · intro hgt
    rw [calculateCG_of_not_gt s hgt]
    rfl

/-- C7, witness: from the Excellent state, a compute on rows without credits gives
Undetermined and a compute on two `CD` rows gives a determined band. -/
theorem resultBand_transitions_witness :
    (calculateCG { calculateCG (withCourses [("5", "AA"), ("5", "BB")]) with
        courses := [{ credits := "", grade := "AA" }] }).resultBand = Band.undetermined
      ∧ (calculateCG (withCourses [("2", "CD"), ("3", "CD")])).resultBand
          ≠ Band.undetermined :=
  ⟨(resultBand_transitions _).2.2.2 (by decide),
    ((resultBand_transitions (withCourses [("2", "CD"), ("3", "CD")])).2.2.1 (by decide)).2⟩

/-! ## The computed value against the spec's exact reading (claims C1 and C10) -/

theorem specCg_two (c1 c2 : CourseEntry) (g1 g2 : Nat) (n1 m1 n2 m2 : Nat) (e1 e2 : Int)
    (hg1 : gradeMap.lookup c1.grade = some g1) (hg2 : gradeMap.lookup c2.grade = some g2)
    (hp1 : parseFloat c1.credits = JSNum.fin false m1 e1)
    (hp2 : parseFloat c2.credits = JSNum.fin false m2 e2)
    (hv1 : specValid c1 = true) (hv2 : specValid c2 = true)
    (h1 : (m1 : ℚ) * (2 : ℚ) ^ e1 = n1) (h2 : (m2 : ℚ) * (2 : ℚ) ^ e2 = n2) :
    specCg [c1, c2]
      = (⌊((g1 : ℚ) * n1 + (g2 : ℚ) * n2) / ((n1 : ℚ) + n2) * 100⌋ : ℚ) / 100 := by
  simp [specCg, specTotalPoints, specTotalCredits, specGradeValue, hv1, hv2, hg1, hg2,
    hp1, hp2, JSNum.toRat, h1, h2]

/-- C1, evaluated: on the spec's two examples the code shows the spec's value
(`5.85`, `9.00`); on credits 13 and 7 with grades `DD` and `CD` both entries are
valid and the exact quotient is `87 / 20 = 4.35`, yet the code shows `4.34`: the
binary product `(87 / 20) * 100` falls just below 435 before `Math.floor`. -/
theorem calculateCG_shows_434_for_exact_435 :
    ((calculateCG (withCourses [("3", "BC"), ("4", "CD")])).cg.text = some "5.85"
        ∧ specCg (withCourses [("3", "BC"), ("4", "CD")]).courses = 585 / 100)
      ∧ ((calculateCG (withCourses [("5", "AA"), ("5", "BB")])).cg.text = some "9.00"
        ∧ specCg (withCourses [("5", "AA"), ("5", "BB")]).courses = 900 / 100)
      ∧ ((∀ c ∈ (withCourses [("13", "DD"), ("7", "CD")]).courses, specValid c = true)
        ∧ (calculateCG (withCourses [("13", "DD"), ("7", "CD")])).cg.text = some "4.34"
        ∧ specCg (withCourses [("13", "DD"), ("7", "CD")]).courses = 435 / 100) := by
  have hA := specCg_two { credits := "3", grade := "BC" } { credits := "4", grade := "CD" }
    7 5 3 6755399441055744 4 4503599627370496 (-51) (-50) (by decide) (by decide)
    (by decide) (by decide) (by decide) (by decide) (by norm_num) (by norm_num)
  have hB := specCg_two { credits := "5", grade := "AA" } { credits := "5", grade := "BB" }
    10 8 5 5629499534213120 5 5629499534213120 (-50) (-50) (by decide) (by decide)
    (by decide) (by decide) (by decide) (by decide) (by norm_num) (by norm_num)
  have hC := specCg_two { credits := "13", grade := "DD" } { credits := "7", grade := "CD" }
    4 5 13 7318349394477056 7 7881299347898368 (-49) (-50) (by decide) (by decide)
    (by decide) (by decide) (by decide) (by decide) (by norm_num) (by norm_num)
  have hfloor : ⌊(((7 : ℕ) : ℚ) * ((3 : ℕ) : ℚ) + ((5 : ℕ) : ℚ) * ((4 : ℕ) : ℚ))
      / (((3 : ℕ) : ℚ) + ((4 : ℕ) : ℚ)) * 100⌋ = 585 := by
    rw [Int.floor_eq_iff]
    norm_num
  refine ⟨⟨by decide, ?_⟩, ⟨by decide, ?_⟩, by decide, by decide, ?_⟩
  · show specCg [{ credits := "3", grade := "BC" }, { credits := "4", grade := "CD" }] = _
    rw [hA, hfloor]
    norm_num
  · show specCg [{ credits := "5", grade := "AA" }, { credits := "5", grade := "BB" }] = _
    rw [hB]
    norm_num
  · show specCg [{ credits := "13", grade := "DD" }, { credits := "7", grade := "CD" }] = _
    rw [hC]
    norm_num

/-- C10, evaluated: on credits `0.1` and `0.2`, both graded `BC` (value 7), both
entries are valid, yet the code shows `6.99`: the computed value is below 7, the
smallest grade value among the valid entries, and the band drops to Average. -/
theorem calculateCG_all_BC_shows_699 :
    (∀ c ∈ (withCourses [("0.1", "BC"), ("0.2", "BC")]).courses,
        specValid c = true ∧ specGradeValue c = 7)
      ∧ (calculateCG (withCourses [("0.1", "BC"), ("0.2", "BC")])).cg.text = some "6.99"
      ∧ (calculatedCG (totals (withCourses [("0.1", "BC"), ("0.2", "BC")]).courses)).lt
          (JSNum.ofNat 7) = true
      ∧ (calculateCG (withCourses [("0.1", "BC"), ("0.2", "BC")])).resultBand
          = Band.average := by
  decide

/-! ## Rejected entries (claims C3 and C4) -/

theorem forEachBody_of_rejected (t : Totals) (c : CourseEntry)
    (h : gradeMapGet c.grade = JSValue.undefined ∨ (parseFloat c.credits).isNaN = true
      ∨ (parseFloat c.credits).gt JSNum.zero = false) :
    forEachBody t c = { t with updatedGradePoints := t.updatedGradePoints ++ [JSNum.zero] } := by
  have hacc : acceptsEntry c = false := by
    rcases h with h | h | h <;> simp [acceptsEntry, h]
  simp [forEachBody, hacc]

theorem foldl_totalCredits_of_rejected (cs : List CourseEntry) (t : Totals)
    (h : ∀ c ∈ cs, acceptsEntry c = false) :
    (cs.foldl forEachBody t).totalCredits = t.totalCredits := by
  induction cs generalizing t with
  | nil => rfl
  | cons c cs ih =>
    rw [List.foldl_cons, ih _ (fun d hd => h d (List.mem_cons_of_mem c hd))]
    simp [forEachBody, h c (List.mem_cons_self c cs)]

theorem calculateCG_of_all_rejected (s : State)
    (h : ∀ c ∈ s.courses, acceptsEntry c = false) :
    calculateCG s =
      { s with cg := Cg.invalidInput, courseGradePoints := [], bgColor := BgColor.gray100 } := by
  apply calculateCG_of_not_gt
  unfold totals
  rw [foldl_totalCredits_of_rejected s.courses _ h]
  decide

end CgCalc
